import Mathlib

/-!
Shallow embedding of the similarity / matching / scoring engine of the
small-business marketing platform: vendor similarity and community grouping
(`backend/community_matching.py`), collaboration matching and initiation
(`collaboration_engine.py`), pitch scoring and investor matching
(`backend/fundraising_manager.py`), and trust scoring (`trust_system.py`).

Conventions of the embedding:
- Database tables are modelled as lists of records; SQL point lookups become
  `List.find?` and filtered scans become `List.filter`.
- Numeric score arithmetic is modelled over `ℚ`; integer point buckets over `ℕ`.
- A nullable/falsy text column is modelled as `String`, with `""` playing the
  role of both SQL NULL and the empty string (Python truthiness).
- A numeric column that is either absent or obtained by a fallible `float(...)`
  conversion is modelled as `Option ℚ`: `none` is NULL / an unparsable value.
- JSON-encoded collection columns are modelled by the deserialized `List String`.
- Python's stable `list.sort(key=..., reverse=True)` is modelled by the stable
  `List.insertionSort` with the relation "left score is at least right score":
  a stable sort by a key is uniquely determined by the key order, so this
  produces exactly the order CPython produces.
-/

/-- A row of the `vendor_profiles` table, restricted to the columns the
matching engine reads. -/
structure VendorProfile where
  vendor_id : Nat
  business_name : String
  business_type : String
  industry : String
  location : String
  target_audience : List String
  budget : Option ℚ
  goals : List String
deriving DecidableEq

/-- Characters of `location` before the first comma: Python's
`location.split(',')[0]` (the whole string when there is no comma). -/
def first_token (s : String) : List Char :=
  s.data.takeWhile (fun c => c ≠ ',')

/-- CommunityMatching.calculate_similarity: weighted similarity of two vendor
profiles. Each factor adds its contribution to `score` when its data is
present; every factor's weight is added to `factors` unconditionally, exactly
as in the source (the `factors +=` statements sit outside the `if` blocks). -/
def calculate_similarity (vendor1 vendor2 : VendorProfile) : ℚ :=
  let score1 : ℚ := if vendor1.industry = vendor2.industry then 2/5 else 0
  let factors1 : ℚ := 2/5
  let score2 : ℚ :=
    if vendor1.location ≠ "" ∧ vendor2.location ≠ "" then
      if vendor1.location = vendor2.location then score1 + 1/5
      else if first_token vendor1.location = first_token vendor2.location then score1 + 1/10
      else score1
    else score1
  let factors2 : ℚ := factors1 + 1/5
  let score3 : ℚ := if vendor1.business_type = vendor2.business_type then score2 + 3/20 else score2
  let factors3 : ℚ := factors2 + 3/20
  let audience1 := vendor1.target_audience.toFinset
  let audience2 := vendor2.target_audience.toFinset
  let score4 : ℚ :=
    if audience1.Nonempty ∧ audience2.Nonempty then
      score3 + ((audience1 ∩ audience2).card : ℚ) / ((audience1 ∪ audience2).card : ℚ) * (3/20)
    else score3
  let factors4 : ℚ := factors3 + 3/20
  let budget1 : ℚ := vendor1.budget.getD 0
  let budget2 : ℚ := vendor2.budget.getD 0
  let score5 : ℚ :=
    if 0 < budget1 ∧ 0 < budget2 then
      score4 + min budget1 budget2 / max budget1 budget2 * (1/10)
    else score4
  let factors5 : ℚ := factors4 + 1/10
  if 0 < factors5 then score5 / factors5 else 0

/-- CommunityMatching.get_common_features. Python iterates a set when listing
shared goals, which has no specified order; the embedding lists them in the
order they appear in `vendor1.goals`. -/
def get_common_features (vendor1 vendor2 : VendorProfile) : List String :=
  let c1 : List String :=
    if vendor1.industry = vendor2.industry then ["Same industry: " ++ vendor1.industry] else []
  let c2 : List String :=
    if vendor1.location = vendor2.location then ["Same location: " ++ vendor1.location] else []
  let common_goals := vendor1.goals.dedup.filter (fun g => decide (g ∈ vendor2.goals))
  let c3 : List String :=
    if common_goals ≠ [] then ["Shared goals: " ++ ", ".intercalate (common_goals.take 3)] else []
  let budget1 : ℚ := vendor1.budget.getD 0
  let budget2 : ℚ := vendor2.budget.getD 0
  let c4 : List String :=
    if |budget1 - budget2| < max budget1 budget2 * (1/2) then ["Similar budget range"] else []
  c1 ++ c2 ++ c3 ++ c4

/-- One entry of the list returned by CommunityMatching.find_similar_vendors. -/
structure SimilarityEntry where
  vendor_id : Nat
  business_name : String
  industry : String
  similarity_score : ℚ
  common_features : List String
deriving DecidableEq

/-- Descending order on similarity entries: the relation used to model
`similarities.sort(key=lambda x: x['similarity_score'], reverse=True)`. -/
def sim_desc (a b : SimilarityEntry) : Prop :=
  b.similarity_score ≤ a.similarity_score

instance : DecidableRel sim_desc :=
  fun a b => inferInstanceAs (Decidable (b.similarity_score ≤ a.similarity_score))

instance : IsTotal SimilarityEntry sim_desc :=
  ⟨fun a b => le_total b.similarity_score a.similarity_score⟩

instance : IsTrans SimilarityEntry sim_desc :=
  ⟨fun _ _ _ h1 h2 => le_trans h2 h1⟩

/-- CommunityMatching.find_similar_vendors. -/
def find_similar_vendors (db : List VendorProfile) (vendor_id : Nat) (limit : Nat) :
    List SimilarityEntry :=
  match db.find? (fun v => decide (v.vendor_id = vendor_id)) with
  | none => []
  | some target =>
    let others := db.filter (fun v => decide (v.vendor_id ≠ vendor_id))
    let similarities := others.filterMap (fun v =>
      let s := calculate_similarity target v
      if 3/10 < s then
        some { vendor_id := v.vendor_id, business_name := v.business_name,
               industry := v.industry, similarity_score := s,
               common_features := get_common_features target v }
      else none)
    (List.insertionSort sim_desc similarities).take limit

/-- Fixed complementary industry pair table of CollaborationEngine. -/
def complementary_pairs : List (String × String) :=
  [("restaurant", "food_delivery"), ("retail", "logistics"), ("software", "consulting"),
   ("photography", "real_estate"), ("event_planning", "catering")]

/-- CollaborationEngine.are_industries_complementary. -/
def are_industries_complementary (industry1 industry2 : String) : Bool :=
  complementary_pairs.any (fun p =>
    decide ((industry1 = p.1 ∧ industry2 = p.2) ∨ (industry1 = p.2 ∧ industry2 = p.1)))

/-- Fixed industry-to-skills table of CollaborationEngine.has_complementary_skills. -/
def skill_map (industry : String) : List String :=
  if industry = "restaurant" then ["culinary", "customer_service", "inventory_management"]
  else if industry = "technology" then ["programming", "product_development", "technical_support"]
  else if industry = "retail" then ["sales", "merchandising", "customer_relations"]
  else if industry = "consulting" then ["strategy", "analysis", "client_management"]
  else if industry = "creative" then ["design", "content_creation", "branding"]
  else []

/-- CollaborationEngine.has_complementary_skills. -/
def has_complementary_skills (vendor1 vendor2 : VendorProfile) : Bool :=
  decide (((skill_map vendor1.industry).toFinset ∩ (skill_map vendor2.industry).toFinset).card < 2)

/-- CollaborationEngine.find_synergy_areas. -/
def find_synergy_areas (vendor1 vendor2 : VendorProfile) : List String :=
  let s1 : List String :=
    if (vendor1.target_audience.toFinset ∩ vendor2.target_audience.toFinset).Nonempty
    then ["shared_customer_base"] else []
  let s2 : List String :=
    if vendor1.budget.getD 0 < 5000 ∨ vendor2.budget.getD 0 < 5000 then ["resource_pooling"] else []
  let s3 : List String :=
    if "increase_sales" ∈ vendor1.goals ∧ "increase_sales" ∈ vendor2.goals
    then ["joint_marketing"] else []
  let s4 : List String :=
    if vendor1.location = vendor2.location then ["local_partnership"] else []
  s1 ++ s2 ++ s3 ++ s4

/-- Shared-goals points inside CollaborationEngine.find_collaboration_matches:
`if common_goals: match_score += len(common_goals) * 5`. -/
def goals_contribution (requester vendor : VendorProfile) : Nat :=
  let common_goals := requester.goals.toFinset ∩ vendor.goals.toFinset
  if common_goals.Nonempty then common_goals.card * 5 else 0

/-- The total match score accumulated in CollaborationEngine.find_collaboration_matches. -/
def collab_match_score (requester vendor : VendorProfile) : Nat :=
  (if are_industries_complementary requester.industry vendor.industry then 30 else 0)
  + (if requester.location = vendor.location then 20 else 0)
  + goals_contribution requester vendor
  + (if has_complementary_skills requester vendor then 25 else 0)

/-- The collaboration_types list accumulated in find_collaboration_matches. -/
def collab_types (requester vendor : VendorProfile) : List String :=
  (if are_industries_complementary requester.industry vendor.industry
   then ["cross_promotion"] else [])
  ++ (if requester.location = vendor.location then ["local_partnership"] else [])
  ++ (if (requester.goals.toFinset ∩ vendor.goals.toFinset).Nonempty
      then ["shared_objectives"] else [])
  ++ (if has_complementary_skills requester vendor then ["skill_exchange"] else [])

/-- One entry of the list returned by find_collaboration_matches. -/
structure CollabMatch where
  vendor_id : Nat
  business_name : String
  industry : String
  location : String
  match_score : Nat
  collaboration_types : List String
  synergy_areas : List String
deriving DecidableEq

/-- Descending order on collaboration matches. -/
def cm_desc (a b : CollabMatch) : Prop :=
  b.match_score ≤ a.match_score

instance : DecidableRel cm_desc :=
  fun a b => inferInstanceAs (Decidable (b.match_score ≤ a.match_score))

instance : IsTotal CollabMatch cm_desc :=
  ⟨fun a b => le_total b.match_score a.match_score⟩

instance : IsTrans CollabMatch cm_desc :=
  ⟨fun _ _ _ h1 h2 => le_trans h2 h1⟩

/-- CollaborationEngine.find_collaboration_matches. -/
def find_collaboration_matches (db : List VendorProfile) (vendor_id : Nat) : List CollabMatch :=
  match db.find? (fun v => decide (v.vendor_id = vendor_id)) with
  | none => []
  | some requester =>
    let others := db.filter (fun v => decide (v.vendor_id ≠ vendor_id))
    let match_list := others.filterMap (fun v =>
      let ms := collab_match_score requester v
      if 40 ≤ ms then
        some { vendor_id := v.vendor_id, business_name := v.business_name,
               industry := v.industry, location := v.location, match_score := ms,
               collaboration_types := collab_types requester v,
               synergy_areas := find_synergy_areas requester v }
      else none)
    (List.insertionSort cm_desc match_list).take 10

/-- A row of the `collaborations` table. -/
structure Collaboration where
  vendor1_id : Nat
  vendor2_id : Nat
  collaboration_type : String
  status : String
deriving DecidableEq

/-- CollaborationEngine.initiate_collaboration: inserts one row with status
'proposed' into the collaborations store, with no validation of the ids. -/
def initiate_collaboration (collaborations : List Collaboration)
    (vendor1_id vendor2_id : Nat) (collaboration_type : String) : List Collaboration :=
  collaborations ++
    [{ vendor1_id := vendor1_id, vendor2_id := vendor2_id,
       collaboration_type := collaboration_type, status := "proposed" }]

/-- Substring search over the character lists of two strings: Python's
`needle in haystack` on str. -/
def in_search (needle : List Char) : List Char → Bool
  | [] => needle.isEmpty
  | c :: rest => needle.isPrefixOf (c :: rest) || in_search needle rest

/-- Python's `needle in haystack` for strings. -/
def str_contains (haystack needle : String) : Bool :=
  in_search needle.data haystack.data

/-- Python's `str.lower()`, restricted to the ASCII lowering Lean's
`Char.toLower` performs (all keywords the scoring code searches for are ASCII). -/
def lower (s : String) : String :=
  String.mk (s.data.map Char.toLower)

/-- A row of the `fundraising_pitches` table, restricted to the columns the
scoring and matching code reads. `funding_amount` is the result of the
fallible `float(...)` conversion: `none` models an unparsable stored value. -/
structure PitchRecord where
  pitch_id : Nat
  vendor_id : Nat
  title : String
  problem_statement : String
  solution : String
  market_size : String
  business_model : String
  traction : String
  funding_amount : Option ℚ
  status : String
deriving DecidableEq

/-- The funding-appropriateness bucket of FundraisingManager.calculate_pitch_score:
seed range [50000, 500000] gives 20, series A range (500000, 2000000] gives 15,
anything else (including an unparsable amount) gives 10. -/
def pitch_funding_points (funding_amount : Option ℚ) : Nat :=
  match funding_amount with
  | some f =>
    if 50000 ≤ f ∧ f ≤ 500000 then 20
    else if 500000 < f ∧ f ≤ 2000000 then 15
    else 10
  | none => 10

/-- FundraisingManager.calculate_pitch_score. -/
def calculate_pitch_score (db : List PitchRecord) (pitch_id : Nat) : Nat :=
  match db.find? (fun p => decide (p.pitch_id = pitch_id)) with
  | none => 0
  | some pitch =>
    let s1 := if 100 < pitch.problem_statement.length then 15 else 0
    let s2 := s1 + (if str_contains (lower pitch.problem_statement) "pain" then 5 else 0)
    let s3 := s2 + (if 50 < pitch.solution.length then 20 else 0)
    let s4 := s3 + (if str_contains (lower pitch.market_size) "billion" then 20
                    else if str_contains (lower pitch.market_size) "million" then 15 else 10)
    let s5 := s4 + (if pitch.traction ≠ "" then
                      (if str_contains (lower pitch.traction) "revenue" then 15 else 0)
                      + (if str_contains (lower pitch.traction) "users" then 5 else 0)
                    else 0)
    let s6 := s5 + pitch_funding_points pitch.funding_amount
    min s6 100

/-- A row of the `investors` table. `check_size_min` and `check_size_max` are
the results of the fallible `float(...)` conversions in find_investor_matches. -/
structure Investor where
  name : String
  firm : String
  industries : List String
  location_preference : String
  check_size_min : Option ℚ
  check_size_max : Option ℚ
  investment_stage : String
  contact_info : String
deriving DecidableEq

/-- The funding-amount bucket of FundraisingManager.find_investor_matches: the
whole try block degrades to 10 when any of the three numbers is unparsable. -/
def funding_match_points (funding check_min check_max : Option ℚ) : Nat :=
  match funding, check_min, check_max with
  | some f, some cmin, some cmax =>
    if cmin ≤ f ∧ f ≤ cmax then 30
    else if f < cmin then 15
    else 10
  | _, _, _ => 10

/-- The per-investor match score of find_investor_matches. The location factor
is Python's `pitch_location in location_preference` substring test, guarded by
truthiness of the preference string. -/
def investor_match_score (pitch_industry pitch_location : String) (funding : Option ℚ)
    (investor : Investor) : Nat :=
  (if pitch_industry ∈ investor.industries then 40 else 0)
  + (if investor.location_preference ≠ ""
        ∧ str_contains investor.location_preference pitch_location then 30 else 0)
  + funding_match_points funding investor.check_size_min investor.check_size_max

/-- One entry of the list returned by find_investor_matches. -/
structure InvestorMatch where
  investor : String
  firm : String
  match_score : Nat
  investment_stage : String
  contact_info : String
deriving DecidableEq

/-- Descending order on investor matches. -/
def im_desc (a b : InvestorMatch) : Prop :=
  b.match_score ≤ a.match_score

instance : DecidableRel im_desc :=
  fun a b => inferInstanceAs (Decidable (b.match_score ≤ a.match_score))

instance : IsTotal InvestorMatch im_desc :=
  ⟨fun a b => le_total b.match_score a.match_score⟩

instance : IsTrans InvestorMatch im_desc :=
  ⟨fun _ _ _ h1 h2 => le_trans h2 h1⟩

/-- FundraisingManager.find_investor_matches. The SQL join of the pitch with
its vendor is the nested lookup: no pitch row or no joined vendor row means no
result row, hence the empty list. -/
def find_investor_matches (pitches : List PitchRecord) (vendors : List VendorProfile)
    (investors : List Investor) (pitch_id : Nat) : List InvestorMatch :=
  match pitches.find? (fun p => decide (p.pitch_id = pitch_id)) with
  | none => []
  | some pitch =>
    match vendors.find? (fun v => decide (v.vendor_id = pitch.vendor_id)) with
    | none => []
    | some vendor =>
      let match_list := investors.filterMap (fun inv =>
        let ms := investor_match_score vendor.industry vendor.location pitch.funding_amount inv
        if 50 ≤ ms then
          some { investor := inv.name, firm := inv.firm, match_score := ms,
                 investment_stage := inv.investment_stage, contact_info := inv.contact_info }
        else none)
      (List.insertionSort im_desc match_list).take 10

/-- A row of the `reviews` table (rating is CHECKed to lie in [1,5]). -/
structure ReviewRec where
  reviewer_id : Nat
  vendor_id : Nat
  rating : Nat
  comment : String
deriving DecidableEq

/-- A row of the `ad_campaigns` table, restricted to what trust scoring reads. -/
structure AdCampaign where
  vendor_id : Nat
  status : String
deriving DecidableEq

/-- TrustSystem.calculate_trust_score. SQL `AVG(rating)` yields NULL when the
vendor has no reviews, and Python's `or 3.0` replaces both NULL and 0.0 by 3.0;
the embedding computes the raw average (0 when there are no rows, matching the
`if 0 <` guard collapsing NULL to 0) and applies the same truthiness fallback. -/
def calculate_trust_score (collaborations : List Collaboration) (reviews : List ReviewRec)
    (campaigns : List AdCampaign) (vendor_id : Nat) : ℚ :=
  let vendor_collabs := collaborations.filter
    (fun c => decide (c.vendor1_id = vendor_id ∨ c.vendor2_id = vendor_id))
  let collab_completed := (vendor_collabs.filter (fun c => decide (c.status = "completed"))).length
  let collab_rate : ℚ :=
    if 0 < vendor_collabs.length then (collab_completed : ℚ) / (vendor_collabs.length : ℚ) else 0
  let vendor_reviews := reviews.filter (fun r => decide (r.vendor_id = vendor_id))
  let avg_raw : ℚ :=
    if 0 < vendor_reviews.length then
      ((vendor_reviews.map (fun r => (r.rating : ℚ))).sum) / (vendor_reviews.length : ℚ)
    else 0
  let avg_rating : ℚ := if avg_raw = 0 then 3 else avg_raw
  let vendor_campaigns := campaigns.filter (fun c => decide (c.vendor_id = vendor_id))
  let campaign_completed :=
    (vendor_campaigns.filter (fun c => decide (c.status = "completed"))).length
  let campaign_rate : ℚ :=
    if 0 < vendor_campaigns.length then
      (campaign_completed : ℚ) / (vendor_campaigns.length : ℚ)
    else 0
  let score := collab_rate * 30 + avg_rating * 10 + campaign_rate * 20 + 40
  min (max score 0) 100

/-- One entry of the list returned by CommunityMatching.create_community_groups. -/
structure CommunityGroup where
  name : String
  members : List Nat
  size : Nat
  common_industry : String
deriving DecidableEq

/-- CommunityMatching.get_common_industry: the industry with the greatest count
among the given vendors. The SQL `ORDER BY count DESC LIMIT 1` does not fix a
tie order; the embedding keeps the first industry (in store order) of maximal
count. -/
def get_common_industry (db : List VendorProfile) (vendor_ids : List Nat) : String :=
  if vendor_ids = [] then "Mixed"
  else
    let group_vendors := db.filter (fun v => decide (v.vendor_id ∈ vendor_ids))
    let industries := (group_vendors.map (fun v => v.industry)).dedup
    match industries.argmax
        (fun ind => (group_vendors.filter (fun v => decide (v.industry = ind))).length) with
    | some ind => ind
    | none => "Mixed"

/-- The loop body of CommunityMatching.create_community_groups: walks the
vendor ids in store order, skipping processed ids; a vendor with at least one
similarity match above 0.5 founds a group of itself plus those match ids (all
of which become processed), a vendor with none is just marked processed. -/
def groups_loop (db : List VendorProfile) :
    List Nat → List Nat → List CommunityGroup → List CommunityGroup
  | [], _, groups => groups
  | vid :: rest, processed, groups =>
    if vid ∈ processed then groups_loop db rest processed groups
    else
      let similar := find_similar_vendors db vid 5
      let similar_ids :=
        (similar.filter (fun s => decide ((1:ℚ)/2 < s.similarity_score))).map
          (fun s => s.vendor_id)
      if similar_ids ≠ [] then
        let group := vid :: similar_ids
        groups_loop db rest (processed ++ group)
          (groups ++ [{ name := "Community Group " ++ toString (groups.length + 1),
                        members := group, size := group.length,
                        common_industry := get_common_industry db group }])
      else groups_loop db rest (processed ++ [vid]) groups

/-- CommunityMatching.create_community_groups. -/
def create_community_groups (db : List VendorProfile) : List CommunityGroup :=
  groups_loop db (db.map (fun v => v.vendor_id)) [] []

/-- Modelled from the spec: the "effective weight" similarity the spec (and claim
C1) describes, where a factor with missing data is excluded from numerator AND
denominator — the audience weight 0.15 only counts when both audience sets are
non-empty and the budget weight 0.10 only counts when both budgets are positive,
while the location weight 0.20 is always counted (the asymmetry the spec flags).
This definition exists to be compared against `calculate_similarity`. -/
def spec_effective_weight_similarity (vendor1 vendor2 : VendorProfile) : ℚ :=
  let audience1 := vendor1.target_audience.toFinset
  let audience2 := vendor2.target_audience.toFinset
  let budget1 : ℚ := vendor1.budget.getD 0
  let budget2 : ℚ := vendor2.budget.getD 0
  let score :=
    (if vendor1.industry = vendor2.industry then (2/5 : ℚ) else 0)
    + (if vendor1.location ≠ "" ∧ vendor2.location ≠ "" then
        (if vendor1.location = vendor2.location then (1/5 : ℚ)
         else if first_token vendor1.location = first_token vendor2.location then 1/10 else 0)
       else 0)
    + (if vendor1.business_type = vendor2.business_type then (3/20 : ℚ) else 0)
    + (if audience1.Nonempty ∧ audience2.Nonempty then
        ((audience1 ∩ audience2).card : ℚ) / ((audience1 ∪ audience2).card : ℚ) * (3/20)
       else 0)
    + (if 0 < budget1 ∧ 0 < budget2 then
        min budget1 budget2 / max budget1 budget2 * (1/10)
       else 0)
  let factors :=
    (2/5 : ℚ) + 1/5 + 3/20
    + (if audience1.Nonempty ∧ audience2.Nonempty then (3/20 : ℚ) else 0)
    + (if 0 < budget1 ∧ 0 < budget2 then (1/10 : ℚ) else 0)
  if 0 < factors then score / factors else 0

/-! Concrete records used by the counterexamples and witnesses below. -/

/-- Vendor with an empty target_audience set and no budget (C1 scenario). -/
def c1A : VendorProfile :=
  { vendor_id := 1, business_name := "A", business_type := "llc", industry := "technology",
    location := "Springfield", target_audience := [], budget := none, goals := [] }

/-- Vendor matching `c1A` on industry, location and business type, with a
non-empty audience set. -/
def c1B : VendorProfile :=
  { vendor_id := 2, business_name := "B", business_type := "llc", industry := "technology",
    location := "Springfield", target_audience := ["students"], budget := none, goals := [] }

/-- The pitch of end-to-end scenario 2: 150-character problem statement
containing "pain", 60-character solution, market size "$10B total addressable
market", traction with "users" but not "revenue", funding 300000. -/
def c2_pitch : PitchRecord :=
  { pitch_id := 1, vendor_id := 1, title := "T",
    problem_statement := String.mk (List.replicate 146 'x' ++ "pain".data),
    solution := String.mk (List.replicate 60 's'),
    market_size := "$10B total addressable market",
    business_model := "subscriptions",
    traction := "100+ beta users, 95% satisfaction",
    funding_amount := some 300000, status := "draft" }

/-- Three collaborations touching vendor 7, two of them completed. -/
def c4_collabs : List Collaboration :=
  [{ vendor1_id := 7, vendor2_id := 2, collaboration_type := "a", status := "completed" },
   { vendor1_id := 3, vendor2_id := 7, collaboration_type := "b", status := "completed" },
   { vendor1_id := 7, vendor2_id := 4, collaboration_type := "c", status := "proposed" }]

/-- Four reviews of vendor 7 averaging 4.0. -/
def c4_reviews : List ReviewRec :=
  [{ reviewer_id := 1, vendor_id := 7, rating := 4, comment := "" },
   { reviewer_id := 2, vendor_id := 7, rating := 4, comment := "" },
   { reviewer_id := 3, vendor_id := 7, rating := 5, comment := "" },
   { reviewer_id := 4, vendor_id := 7, rating := 3, comment := "" }]

/-- Five campaigns of vendor 7, three of them completed. -/
def c4_campaigns : List AdCampaign :=
  [{ vendor_id := 7, status := "completed" }, { vendor_id := 7, status := "completed" },
   { vendor_id := 7, status := "completed" }, { vendor_id := 7, status := "failed" },
   { vendor_id := 7, status := "pending" }]

/-- Requesting vendor sharing six goals with `c5B` (C5 scenario). -/
def c5A : VendorProfile :=
  { vendor_id := 1, business_name := "A", business_type := "x", industry := "farming",
    location := "Here", target_audience := [], budget := none,
    goals := ["g1", "g2", "g3", "g4", "g5", "g6"] }

/-- Candidate vendor sharing six goals with `c5A`. -/
def c5B : VendorProfile :=
  { vendor_id := 2, business_name := "B", business_type := "y", industry := "farming",
    location := "There", target_audience := [], budget := none,
    goals := ["g1", "g2", "g3", "g4", "g5", "g6"] }

/-- Vendor 1 of the witness store: identical profile to `w_v2` except the id,
so the pair's similarity evaluates to 1. -/
def w_v1 : VendorProfile :=
  { vendor_id := 1, business_name := "V1", business_type := "llc", industry := "technology",
    location := "Springfield", target_audience := ["students"], budget := some 100, goals := [] }

/-- Vendor 2 of the witness store. -/
def w_v2 : VendorProfile :=
  { vendor_id := 2, business_name := "V2", business_type := "llc", industry := "technology",
    location := "Springfield", target_audience := ["students"], budget := some 100, goals := [] }

/-- The similarity entry find_similar_vendors [w_v1, w_v2] 1 10 produces for w_v2. -/
def w_entry : SimilarityEntry :=
  { vendor_id := 2, business_name := "V2", industry := "technology", similarity_score := 1,
    common_features := ["Same industry: technology", "Same location: Springfield",
                        "Similar budget range"] }

/-- The collaboration match find_collaboration_matches [c5A, c5B] 1 produces for c5B. -/
def w_cmatch : CollabMatch :=
  { vendor_id := 2, business_name := "B", industry := "farming", location := "There",
    match_score := 55, collaboration_types := ["shared_objectives", "skill_exchange"],
    synergy_areas := ["resource_pooling"] }

/-- The community group create_community_groups [w_v1, w_v2] produces. -/
def w_group : CommunityGroup :=
  { name := "Community Group 1", members := [1, 2], size := 2, common_industry := "technology" }

/-- The collaboration row stored by initiate_collaboration [] 1 2 "cross_promotion". -/
def w_collab : Collaboration :=
  { vendor1_id := 1, vendor2_id := 2, collaboration_type := "cross_promotion",
    status := "proposed" }

/-- What it means for a community group to be well-formed over a vendor store:
a seed member followed by a non-empty list of at most five ids, each of which
occurs in the seed's five-match similarity list with score above 0.5. -/
def good_group (db : List VendorProfile) (g : CommunityGroup) : Prop :=
  ∃ seed rest, g.members = seed :: rest ∧ rest ≠ [] ∧ rest.length ≤ 5
    ∧ ∀ m ∈ rest, ∃ e ∈ find_similar_vendors db seed 5,
        e.vendor_id = m ∧ (1:ℚ)/2 < e.similarity_score

/-! Theorems. -/

section Theorems

attribute [local semireducible] Rat.mul Rat.inv Rat.add Rat.sub

set_option maxRecDepth 100000

/-- The accumulated-factors denominator of calculate_similarity is always
0.4 + 0.2 + 0.15 + 0.15 + 0.1 = 1, so the score is the plain sum of the
factor contributions, with no renormalization for missing data. -/
theorem calculate_similarity_eq_sum (v1 v2 : VendorProfile) :
    calculate_similarity v1 v2 =
      (if v1.industry = v2.industry then (2/5 : ℚ) else 0)
      + (if v1.location ≠ "" ∧ v2.location ≠ "" then
          (if v1.location = v2.location then (1/5 : ℚ)
           else if first_token v1.location = first_token v2.location then 1/10 else 0)
         else 0)
      + (if v1.business_type = v2.business_type then (3/20 : ℚ) else 0)
      + (if (v1.target_audience.toFinset).Nonempty ∧ (v2.target_audience.toFinset).Nonempty then
          ((v1.target_audience.toFinset ∩ v2.target_audience.toFinset).card : ℚ)
            / ((v1.target_audience.toFinset ∪ v2.target_audience.toFinset).card : ℚ) * (3/20)
         else 0)
      + (if 0 < v1.budget.getD 0 ∧ 0 < v2.budget.getD 0 then
          min (v1.budget.getD 0) (v2.budget.getD 0) / max (v1.budget.getD 0) (v2.budget.getD 0)
            * (1/10)
         else 0) := by
  simp only [calculate_similarity]
  rw [if_pos (by norm_num : (0:ℚ) < 2/5 + 1/5 + 3/20 + 3/20 + 1/10)]
  rw [show (2/5 + 1/5 + 3/20 + 3/20 + 1/10 : ℚ) = 1 from by norm_num, div_one]
  split_ifs <;> ring

/-- C1: the claim that the 0.15 audience weight and the 0.10 budget weight are
excluded from the denominator when the corresponding data is missing is false
on the code: for the concrete pair below, where one audience set is empty and
both budgets are absent, the code divides by the full weight sum 1 and returns
0.75, while the spec's effective-weight normalization would return 1. -/
theorem claim_C1_counterexample :
    c1A.target_audience = [] ∧ c1A.budget = none ∧ c1B.budget = none
      ∧ calculate_similarity c1A c1B = 3/4
      ∧ spec_effective_weight_similarity c1A c1B = 1
      ∧ calculate_similarity c1A c1B ≠ spec_effective_weight_similarity c1A c1B := by
  refine ⟨rfl, rfl, rfl, by decide, by decide, by decide⟩

/-- C1 (amended): factors with missing data are excluded from the numerator
only; all five weights are always counted in the denominator, which therefore
always equals 1, so calculate_similarity returns the plain sum of the factor
contributions (audience and budget contribute 0, not an excluded weight, when
their data is missing). -/
theorem claim_C1_amended_denominator_always_one (v1 v2 : VendorProfile) :
    calculate_similarity v1 v2 =
      (if v1.industry = v2.industry then (2/5 : ℚ) else 0)
      + (if v1.location ≠ "" ∧ v2.location ≠ "" then
          (if v1.location = v2.location then (1/5 : ℚ)
           else if first_token v1.location = first_token v2.location then 1/10 else 0)
         else 0)
      + (if v1.business_type = v2.business_type then (3/20 : ℚ) else 0)
      + (if (v1.target_audience.toFinset).Nonempty ∧ (v2.target_audience.toFinset).Nonempty then
          ((v1.target_audience.toFinset ∩ v2.target_audience.toFinset).card : ℚ)
            / ((v1.target_audience.toFinset ∪ v2.target_audience.toFinset).card : ℚ) * (3/20)
         else 0)
      + (if 0 < v1.budget.getD 0 ∧ 0 < v2.budget.getD 0 then
          min (v1.budget.getD 0) (v2.budget.getD 0) / max (v1.budget.getD 0) (v2.budget.getD 0)
            * (1/10)
         else 0) :=
  calculate_similarity_eq_sum v1 v2

/-- C3: calculate_similarity is symmetric in its two arguments: every factor
compares the two vendors by a symmetric test, and Jaccard overlap, budget
min/max ratio and the constant denominator are all symmetric. -/
theorem claim_C3_similarity_symmetric (v1 v2 : VendorProfile) :
    calculate_similarity v1 v2 = calculate_similarity v2 v1 := by
  rw [calculate_similarity_eq_sum, calculate_similarity_eq_sum]
  have e1 : (if v1.industry = v2.industry then (2/5:ℚ) else 0)
      = (if v2.industry = v1.industry then (2/5:ℚ) else 0) := by
    rcases eq_or_ne v1.industry v2.industry with h | h
    · rw [if_pos h, if_pos h.symm]
    · rw [if_neg h, if_neg h.symm]
  have e2 : (if v1.location ≠ "" ∧ v2.location ≠ "" then
        (if v1.location = v2.location then (1/5 : ℚ)
         else if first_token v1.location = first_token v2.location then 1/10 else 0)
       else 0)
      = (if v2.location ≠ "" ∧ v1.location ≠ "" then
          (if v2.location = v1.location then (1/5 : ℚ)
           else if first_token v2.location = first_token v1.location then 1/10 else 0)
         else 0) := by
    by_cases hA : v1.location ≠ "" ∧ v2.location ≠ ""
    · rw [if_pos hA, if_pos (And.intro hA.2 hA.1)]
      rcases eq_or_ne v1.location v2.location with h | h
      · rw [if_pos h, if_pos h.symm]
      · rw [if_neg h, if_neg h.symm]
        rcases eq_or_ne (first_token v1.location) (first_token v2.location) with h2 | h2
        · rw [if_pos h2, if_pos h2.symm]
        · rw [if_neg h2, if_neg h2.symm]
    · rw [if_neg hA, if_neg (fun hh => hA ⟨hh.2, hh.1⟩)]
  have e3 : (if v1.business_type = v2.business_type then (3/20:ℚ) else 0)
      = (if v2.business_type = v1.business_type then (3/20:ℚ) else 0) := by
    rcases eq_or_ne v1.business_type v2.business_type with h | h
    · rw [if_pos h, if_pos h.symm]
    · rw [if_neg h, if_neg h.symm]
  have e4 : (if (v1.target_audience.toFinset).Nonempty ∧ (v2.target_audience.toFinset).Nonempty then
        ((v1.target_audience.toFinset ∩ v2.target_audience.toFinset).card : ℚ)
          / ((v1.target_audience.toFinset ∪ v2.target_audience.toFinset).card : ℚ) * (3/20)
       else 0)
      = (if (v2.target_audience.toFinset).Nonempty ∧ (v1.target_audience.toFinset).Nonempty then
          ((v2.target_audience.toFinset ∩ v1.target_audience.toFinset).card : ℚ)
            / ((v2.target_audience.toFinset ∪ v1.target_audience.toFinset).card : ℚ) * (3/20)
         else 0) := by
    by_cases hA : (v1.target_audience.toFinset).Nonempty ∧ (v2.target_audience.toFinset).Nonempty
    · rw [if_pos hA, if_pos (And.intro hA.2 hA.1), Finset.inter_comm, Finset.union_comm]
    · rw [if_neg hA, if_neg (fun hh => hA ⟨hh.2, hh.1⟩)]
  have e5 : (if 0 < v1.budget.getD 0 ∧ 0 < v2.budget.getD 0 then
        min (v1.budget.getD 0) (v2.budget.getD 0) / max (v1.budget.getD 0) (v2.budget.getD 0)
          * (1/10)
       else 0)
      = (if 0 < v2.budget.getD 0 ∧ 0 < v1.budget.getD 0 then
          min (v2.budget.getD 0) (v1.budget.getD 0) / max (v2.budget.getD 0) (v1.budget.getD 0)
            * (1/10)
         else 0) := by
    by_cases hB : 0 < v1.budget.getD 0 ∧ 0 < v2.budget.getD 0
    · rw [if_pos hB, if_pos (And.intro hB.2 hB.1), min_comm, max_comm]
    · rw [if_neg hB, if_neg (fun hh => hB ⟨hh.2, hh.1⟩)]
  rw [e1, e2, e3, e4, e5]

/-- C2: the end-to-end scenario claims a score of 85, crediting +20 for a
billion-scale market, but the code only awards +20 when the market_size text
contains the substring "billion"; "$10B total addressable market" does not, so
the market factor contributes the fallback +10 and the total is 75, not 85. -/
theorem claim_C2_counterexample :
    c2_pitch.problem_statement.length = 150
      ∧ str_contains (lower c2_pitch.problem_statement) "pain" = true
      ∧ c2_pitch.solution.length = 60
      ∧ str_contains (lower c2_pitch.market_size) "billion" = false
      ∧ str_contains (lower c2_pitch.traction) "users" = true
      ∧ str_contains (lower c2_pitch.traction) "revenue" = false
      ∧ c2_pitch.funding_amount = some 300000
      ∧ calculate_pitch_score [c2_pitch] 1 ≠ 85 := by decide

/-- C2 (amended): for the scenario pitch the score is exactly 75 =
15 (problem length) + 5 (pain) + 20 (solution) + 10 (market fallback, since
"$10B" does not contain the substring "billion") + 5 (users, no revenue)
+ 20 (seed-range funding). -/
theorem claim_C2_amended_score_75 :
    calculate_pitch_score [c2_pitch] 1 = 75 := by decide

/-- A list of reviews with every rating at least 1 has positive rating sum. -/
theorem sum_map_rating_pos (l : List ReviewRec) (hne : l ≠ [])
    (h : ∀ r ∈ l, 1 ≤ r.rating) : 0 < ((l.map (fun r => (r.rating : ℚ))).sum) := by
  cases l with
  | nil => exact absurd rfl hne
  | cons a t =>
    have ha : (1:ℚ) ≤ (a.rating : ℚ) := by
      exact_mod_cast h a (List.mem_cons_self a t)
    have ht : 0 ≤ (t.map (fun r => (r.rating : ℚ))).sum := by
      apply List.sum_nonneg
      intro x hx
      obtain ⟨r, _, rfl⟩ := List.mem_map.1 hx
      exact Nat.cast_nonneg r.rating
    rw [List.map_cons, List.sum_cons]
    linarith

/-- C4: under the schema invariant that every stored rating is at least 1, the
trust score is exactly collaboration_completion_rate × 30 + avg_review_rating
× 10 + campaign_completion_rate × 20 + 40 clamped to [0, 100], where each
completion rate is completed/total (0 with no rows) and the average rating
defaults to 3 when the vendor has no reviews. -/
theorem claim_C4_trust_score_formula (collaborations : List Collaboration)
    (reviews : List ReviewRec) (campaigns : List AdCampaign) (vendor_id : Nat)
    (hratings : ∀ r ∈ reviews, 1 ≤ r.rating) :
    calculate_trust_score collaborations reviews campaigns vendor_id =
      min (max (
        (if 0 < (collaborations.filter
              (fun c => decide (c.vendor1_id = vendor_id ∨ c.vendor2_id = vendor_id))).length then
            (((collaborations.filter
                (fun c => decide (c.vendor1_id = vendor_id ∨ c.vendor2_id = vendor_id))).filter
                  (fun c => decide (c.status = "completed"))).length : ℚ)
              / ((collaborations.filter
                  (fun c => decide (c.vendor1_id = vendor_id ∨ c.vendor2_id = vendor_id))).length : ℚ)
          else 0) * 30
        + (if reviews.filter (fun r => decide (r.vendor_id = vendor_id)) = [] then (3:ℚ)
           else ((reviews.filter (fun r => decide (r.vendor_id = vendor_id))).map
                (fun r => (r.rating : ℚ))).sum
              / ((reviews.filter (fun r => decide (r.vendor_id = vendor_id))).length : ℚ)) * 10
        + (if 0 < (campaigns.filter (fun c => decide (c.vendor_id = vendor_id))).length then
            (((campaigns.filter (fun c => decide (c.vendor_id = vendor_id))).filter
                (fun c => decide (c.status = "completed"))).length : ℚ)
              / ((campaigns.filter (fun c => decide (c.vendor_id = vendor_id))).length : ℚ)
          else 0) * 20
        + 40) 0) 100 := by
  simp only [calculate_trust_score]
  have havg :
      (if (if 0 < (reviews.filter (fun r => decide (r.vendor_id = vendor_id))).length then
            ((reviews.filter (fun r => decide (r.vendor_id = vendor_id))).map
                (fun r => (r.rating : ℚ))).sum
              / ((reviews.filter (fun r => decide (r.vendor_id = vendor_id))).length : ℚ)
          else 0) = 0 then (3:ℚ)
        else (if 0 < (reviews.filter (fun r => decide (r.vendor_id = vendor_id))).length then
            ((reviews.filter (fun r => decide (r.vendor_id = vendor_id))).map
                (fun r => (r.rating : ℚ))).sum
              / ((reviews.filter (fun r => decide (r.vendor_id = vendor_id))).length : ℚ)
          else 0))
      = (if reviews.filter (fun r => decide (r.vendor_id = vendor_id)) = [] then (3:ℚ)
         else ((reviews.filter (fun r => decide (r.vendor_id = vendor_id))).map
              (fun r => (r.rating : ℚ))).sum
            / ((reviews.filter (fun r => decide (r.vendor_id = vendor_id))).length : ℚ)) := by
    rcases eq_or_ne (reviews.filter (fun r => decide (r.vendor_id = vendor_id))) [] with h | h
    · rw [h]
      norm_num
    · have hlen : 0 < (reviews.filter (fun r => decide (r.vendor_id = vendor_id))).length :=
        List.length_pos.2 h
      have hsum : 0 < ((reviews.filter (fun r => decide (r.vendor_id = vendor_id))).map
          (fun r => (r.rating : ℚ))).sum :=
        sum_map_rating_pos _ h (fun r hr => hratings r (List.mem_of_mem_filter hr))
      have hq : 0 < ((reviews.filter (fun r => decide (r.vendor_id = vendor_id))).map
          (fun r => (r.rating : ℚ))).sum
            / ((reviews.filter (fun r => decide (r.vendor_id = vendor_id))).length : ℚ) :=
        div_pos hsum (by exact_mod_cast hlen)
      rw [if_pos hlen, if_neg (ne_of_gt hq), if_neg h]
  rw [havg]

/-- C4 witness: end-to-end scenario 3, with 3 collaborations (2 completed),
4 reviews averaging 4.0 and 5 campaigns (3 completed), evaluates to
2/3 × 30 + 4 × 10 + 3/5 × 20 + 40 = 112, clamped to 100. -/
theorem claim_C4_witness :
    calculate_trust_score c4_collabs c4_reviews c4_campaigns 7 = 100 := by
  have h := claim_C4_trust_score_formula c4_collabs c4_reviews c4_campaigns 7 (by decide)
  rw [h]
  decide

/-- C5: the shared-goals factor of the collaboration match score is NOT capped
at 25: two vendors sharing six goals get a shared-goals contribution of 30,
and the resulting match (score 55 = 30 goals + 25 skills) is returned with the
uncapped value. -/
theorem claim_C5_counterexample :
    goals_contribution c5A c5B = 30 ∧ ¬ goals_contribution c5A c5B ≤ 25
      ∧ (find_collaboration_matches [c5A, c5B] 1).map (fun m => m.match_score) = [55] := by
  decide

/-- C5 (amended): the shared-goals factor contributes exactly 5 points per
shared goal with no cap: it equals 5 × |shared goals| and is bounded only by
5 × |requester's goals|, so it can exceed the category's nominal 25. -/
theorem claim_C5_amended_uncapped (requester vendor : VendorProfile) :
    goals_contribution requester vendor
        = (requester.goals.toFinset ∩ vendor.goals.toFinset).card * 5
      ∧ goals_contribution requester vendor ≤ (requester.goals.toFinset).card * 5 := by
  have he : goals_contribution requester vendor
      = (requester.goals.toFinset ∩ vendor.goals.toFinset).card * 5 := by
    simp only [goals_contribution]
    rcases (requester.goals.toFinset ∩ vendor.goals.toFinset).eq_empty_or_nonempty with h | h
    · rw [h]
      simp
    · rw [if_pos h]
  refine ⟨he, ?_⟩
  rw [he]
  exact Nat.mul_le_mul (Finset.card_le_card Finset.inter_subset_left) le_rfl

/-- C6: in the investor funding-amount bucket, a parsable amount equal to
either end of [check_size_min, check_size_max] scores the in-range 30, a
strictly smaller amount scores 15, a strictly larger amount scores 10, and an
unparsable amount scores 10. -/
theorem claim_C6_funding_bucket (f cmin cmax : ℚ) (h : cmin ≤ cmax) :
    ((f = cmin ∨ f = cmax) → funding_match_points (some f) (some cmin) (some cmax) = 30)
    ∧ (f < cmin → funding_match_points (some f) (some cmin) (some cmax) = 15)
    ∧ (cmax < f → funding_match_points (some f) (some cmin) (some cmax) = 10)
    ∧ (∀ a b : Option ℚ, funding_match_points none a b = 10) := by
  refine ⟨?_, ?_, ?_, ?_⟩
  · rintro (rfl | rfl)
    · simp only [funding_match_points]
      rw [if_pos (And.intro (le_refl f) h)]
    · simp only [funding_match_points]
      rw [if_pos (And.intro h (le_refl f))]
  · intro hf
    simp only [funding_match_points]
    rw [if_neg (fun hc => absurd hc.1 (not_le.2 hf)), if_pos hf]
  · intro hf
    simp only [funding_match_points]
    rw [if_neg (fun hc => absurd hc.2 (not_le.2 hf)), if_neg (not_lt.2 (h.trans hf.le))]
  · intro a b
    cases a <;> cases b <;> rfl

/-- C6 witness: with check range [5, 10], an amount of 5 scores 30, an amount
of 3 scores 15, an amount of 11 scores 10, and an unparsable amount scores 10. -/
theorem claim_C6_witness :
    funding_match_points (some 5) (some 5) (some 10) = 30
      ∧ funding_match_points (some 3) (some 5) (some 10) = 15
      ∧ funding_match_points (some 11) (some 5) (some 10) = 10
      ∧ funding_match_points none (some 5) (some 10) = 10 := by
  have h1 := claim_C6_funding_bucket 5 5 10 (by norm_num)
  have h2 := claim_C6_funding_bucket 3 5 10 (by norm_num)
  have h3 := claim_C6_funding_bucket 11 5 10 (by norm_num)
  exact ⟨h1.1 (Or.inl rfl), h2.2.1 (by norm_num), h3.2.2.1 (by norm_num), h1.2.2.2 none (some 10)⟩

/-- A prefix of an insertion-sorted list is pairwise ordered. -/
theorem take_insertionSort_pairwise {α : Type} (r : α → α → Prop) [DecidableRel r]
    [IsTotal α r] [IsTrans α r] (l : List α) (n : Nat) :
    List.Pairwise r ((List.insertionSort r l).take n) :=
  List.Pairwise.sublist (List.take_sublist n _) (List.sorted_insertionSort r l)

/-- Members of a prefix of an insertion-sorted list are members of the list. -/
theorem mem_of_mem_take_insertionSort {α : Type} (r : α → α → Prop) [DecidableRel r]
    {l : List α} {n : Nat} {x : α} (hx : x ∈ (List.insertionSort r l).take n) : x ∈ l :=
  (List.perm_insertionSort r l).mem_iff.1 (List.take_subset n _ hx)

/-- find_similar_vendors never returns the subject vendor. -/
theorem find_similar_vendors_excludes (db : List VendorProfile) (vid limit : Nat) :
    ∀ e ∈ find_similar_vendors db vid limit, e.vendor_id ≠ vid := by
  intro e he
  unfold find_similar_vendors at he
  split at he
  · simp at he
  · dsimp only at he
    have h1 := mem_of_mem_take_insertionSort sim_desc he
    obtain ⟨v, hv, hfm⟩ := List.mem_filterMap.1 h1
    have hvne : v.vendor_id ≠ vid := by
      simpa using (List.mem_filter.1 hv).2
    split at hfm
    · cases hfm
      exact hvne
    · exact absurd hfm (by simp)

/-- find_similar_vendors output is pairwise descending in similarity score. -/
theorem find_similar_vendors_sorted (db : List VendorProfile) (vid limit : Nat) :
    List.Pairwise sim_desc (find_similar_vendors db vid limit) := by
  unfold find_similar_vendors
  split
  · exact List.Pairwise.nil
  · exact take_insertionSort_pairwise sim_desc _ limit

/-- find_similar_vendors returns at most `limit` entries. -/
theorem find_similar_vendors_len (db : List VendorProfile) (vid limit : Nat) :
    (find_similar_vendors db vid limit).length ≤ limit := by
  unfold find_similar_vendors
  split
  · exact Nat.zero_le _
  · exact List.length_take_le _ _

/-- find_collaboration_matches never returns the requesting vendor. -/
theorem find_collaboration_matches_excludes (db : List VendorProfile) (vid : Nat) :
    ∀ m ∈ find_collaboration_matches db vid, m.vendor_id ≠ vid := by
  intro m hm
  unfold find_collaboration_matches at hm
  split at hm
  · simp at hm
  · dsimp only at hm
    have h1 := mem_of_mem_take_insertionSort cm_desc hm
    obtain ⟨v, hv, hfm⟩ := List.mem_filterMap.1 h1
    have hvne : v.vendor_id ≠ vid := by
      simpa using (List.mem_filter.1 hv).2
    split at hfm
    · cases hfm
      exact hvne
    · exact absurd hfm (by simp)

/-- find_collaboration_matches output is pairwise descending in match score. -/
theorem find_collaboration_matches_sorted (db : List VendorProfile) (vid : Nat) :
    List.Pairwise cm_desc (find_collaboration_matches db vid) := by
  unfold find_collaboration_matches
  split
  · exact List.Pairwise.nil
  · exact take_insertionSort_pairwise cm_desc _ 10

/-- find_collaboration_matches returns at most 10 entries. -/
theorem find_collaboration_matches_len (db : List VendorProfile) (vid : Nat) :
    (find_collaboration_matches db vid).length ≤ 10 := by
  unfold find_collaboration_matches
  split
  · exact Nat.zero_le _
  · exact List.length_take_le _ _

/-- find_investor_matches output is pairwise descending in match score. -/
theorem find_investor_matches_sorted (pitches : List PitchRecord)
    (vendors : List VendorProfile) (investors : List Investor) (pid : Nat) :
    List.Pairwise im_desc (find_investor_matches pitches vendors investors pid) := by
  unfold find_investor_matches
  split
  · exact List.Pairwise.nil
  · split
    · exact List.Pairwise.nil
    · exact take_insertionSort_pairwise im_desc _ 10

/-- find_investor_matches returns at most 10 entries. -/
theorem find_investor_matches_len (pitches : List PitchRecord)
    (vendors : List VendorProfile) (investors : List Investor) (pid : Nat) :
    (find_investor_matches pitches vendors investors pid).length ≤ 10 := by
  unfold find_investor_matches
  split
  · exact Nat.zero_le _
  · split
    · exact Nat.zero_le _
    · exact List.length_take_le _ _

/-- C7: each matching entry point returns a ranked, capped list that never
contains the subject: find_similar_vendors excludes the subject id, is
pairwise descending in score and has at most `limit` entries;
find_collaboration_matches likewise with cap 10; find_investor_matches is
pairwise descending with cap 10. -/
theorem claim_C7_ranked_capped (db : List VendorProfile) (pitches : List PitchRecord)
    (vendors : List VendorProfile) (investors : List Investor)
    (vendor_id limit pitch_id : Nat) :
    (∀ e ∈ find_similar_vendors db vendor_id limit, e.vendor_id ≠ vendor_id)
    ∧ List.Pairwise (fun a b => b.similarity_score ≤ a.similarity_score)
        (find_similar_vendors db vendor_id limit)
    ∧ (find_similar_vendors db vendor_id limit).length ≤ limit
    ∧ (∀ m ∈ find_collaboration_matches db vendor_id, m.vendor_id ≠ vendor_id)
    ∧ List.Pairwise (fun a b => b.match_score ≤ a.match_score)
        (find_collaboration_matches db vendor_id)
    ∧ (find_collaboration_matches db vendor_id).length ≤ 10
    ∧ List.Pairwise (fun a b => b.match_score ≤ a.match_score)
        (find_investor_matches pitches vendors investors pitch_id)
    ∧ (find_investor_matches pitches vendors investors pitch_id).length ≤ 10 :=
  ⟨find_similar_vendors_excludes db vendor_id limit,
   find_similar_vendors_sorted db vendor_id limit,
   find_similar_vendors_len db vendor_id limit,
   find_collaboration_matches_excludes db vendor_id,
   find_collaboration_matches_sorted db vendor_id,
   find_collaboration_matches_len db vendor_id,
   find_investor_matches_sorted pitches vendors investors pitch_id,
   find_investor_matches_len pitches vendors investors pitch_id⟩

/-- C7 witness: on concrete two-vendor stores, the returned entries are not
the subject and the lists are sorted and capped. -/
theorem claim_C7_witness :
    w_entry.vendor_id ≠ 1 ∧ w_cmatch.vendor_id ≠ 1
      ∧ List.Pairwise (fun a b => b.similarity_score ≤ a.similarity_score)
          (find_similar_vendors [w_v1, w_v2] 1 10)
      ∧ (find_similar_vendors [w_v1, w_v2] 1 10).length ≤ 10 := by
  have h := claim_C7_ranked_capped [w_v1, w_v2] [] [] [] 1 10 1
  have h2 := claim_C7_ranked_capped [c5A, c5B] [] [] [] 1 10 1
  exact ⟨h.1 w_entry (by decide), h2.2.2.2.1 w_cmatch (by decide), h.2.1, h.2.2.1⟩

/-- C8: when the subject record is absent, each matching entry point returns
the empty list rather than raising: no vendor row with the requested id means
find_similar_vendors and find_collaboration_matches return [], and no pitch
row with the requested id means find_investor_matches returns []. -/
theorem claim_C8_missing_subject_empty (db : List VendorProfile)
    (pitches : List PitchRecord) (vendors : List VendorProfile) (investors : List Investor)
    (vendor_id limit pitch_id : Nat) :
    ((∀ v ∈ db, v.vendor_id ≠ vendor_id) →
        find_similar_vendors db vendor_id limit = []
          ∧ find_collaboration_matches db vendor_id = [])
    ∧ ((∀ p ∈ pitches, p.pitch_id ≠ pitch_id) →
        find_investor_matches pitches vendors investors pitch_id = []) := by
  constructor
  · intro h
    have hfind : db.find? (fun v => decide (v.vendor_id = vendor_id)) = none := by
      rw [List.find?_eq_none]
      intro v hv
      simpa using h v hv
    constructor
    · unfold find_similar_vendors
      rw [hfind]
    · unfold find_collaboration_matches
      rw [hfind]
  · intro h
    have hfind : pitches.find? (fun p => decide (p.pitch_id = pitch_id)) = none := by
      rw [List.find?_eq_none]
      intro p hp
      simpa using h p hp
    unfold find_investor_matches
    rw [hfind]

/-- C8 witness: a store holding only vendor 2 yields empty matches for vendor
1, and a pitch store without pitch 99 yields empty investor matches. -/
theorem claim_C8_witness :
    find_similar_vendors [w_v2] 1 10 = [] ∧ find_collaboration_matches [w_v2] 1 = []
      ∧ find_investor_matches [c2_pitch] [] [] 99 = [] := by
  have h := claim_C8_missing_subject_empty [w_v2] [c2_pitch] [] [] 1 10 99
  refine ⟨(h.1 ?_).1, (h.1 ?_).2, h.2 ?_⟩ <;> decide

/-- C9: initiate_collaboration performs no distinctness check: called with the
same vendor id twice it stores a collaboration whose two vendor ids are equal,
so the distinct-vendors invariant is not preserved by the operation itself. -/
theorem claim_C9_counterexample :
    (initiate_collaboration [] 1 1 "cross_promotion").map
        (fun c => (c.vendor1_id, c.vendor2_id)) = [(1, 1)]
      ∧ ¬ (∀ c ∈ initiate_collaboration [] 1 1 "cross_promotion",
            c.vendor1_id ≠ c.vendor2_id) := by decide

/-- C9 (amended): initiate_collaboration stores exactly the pair it is given,
so it preserves the distinct-vendors invariant precisely when the caller
passes two distinct ids: if every stored collaboration has distinct vendor ids
and the two arguments differ, every collaboration in the updated store has
distinct vendor ids. -/
theorem claim_C9_amended_distinct_when_args_distinct (store : List Collaboration)
    (vendor1_id vendor2_id : Nat) (collaboration_type : String)
    (hstore : ∀ c ∈ store, c.vendor1_id ≠ c.vendor2_id)
    (hargs : vendor1_id ≠ vendor2_id) :
    ∀ c ∈ initiate_collaboration store vendor1_id vendor2_id collaboration_type,
      c.vendor1_id ≠ c.vendor2_id := by
  intro c hc
  rcases List.mem_append.1 hc with h | h
  · exact hstore c h
  · rcases List.mem_singleton.1 h with rfl
    exact hargs

/-- C9 witness: initiating a collaboration between distinct vendors 1 and 2 on
an empty store yields a row with distinct vendor ids. -/
theorem claim_C9_witness : w_collab.vendor1_id ≠ w_collab.vendor2_id :=
  claim_C9_amended_distinct_when_args_distinct [] 1 2 "cross_promotion"
    (by simp) (by decide) w_collab (by decide)

/-- Every group the loop of create_community_groups accumulates is a seed plus
one to five similarity matches above 0.5. -/
theorem groups_loop_good (db : List VendorProfile) :
    ∀ (ids processed : List Nat) (groups : List CommunityGroup),
      (∀ g ∈ groups, good_group db g) →
      ∀ g ∈ groups_loop db ids processed groups, good_group db g := by
  intro ids
  induction ids with
  | nil =>
    intro processed groups hg g hgmem
    exact hg g hgmem
  | cons vid rest ih =>
    intro processed groups hg g hgmem
    simp only [groups_loop] at hgmem
    by_cases hp : vid ∈ processed
    · rw [if_pos hp] at hgmem
      exact ih processed groups hg g hgmem
    · rw [if_neg hp] at hgmem
      by_cases hne :
          ((find_similar_vendors db vid 5).filter
            (fun s => decide ((1:ℚ)/2 < s.similarity_score))).map (fun s => s.vendor_id) ≠ []
      · rw [if_pos hne] at hgmem
        refine ih _ _ ?_ g hgmem
        intro g' hg'
        rcases List.mem_append.1 hg' with h | h
        · exact hg g' h
        · rcases List.mem_singleton.1 h with rfl
          refine ⟨vid, _, rfl, hne, ?_, ?_⟩
          · rw [List.length_map]
            exact le_trans (List.length_filter_le _ _) (find_similar_vendors_len db vid 5)
          · intro m hm
            obtain ⟨e, he, rfl⟩ := List.mem_map.1 hm
            have hef := List.mem_filter.1 he
            exact ⟨e, hef.1, rfl, by simpa using hef.2⟩
      · rw [if_neg hne] at hgmem
        exact ih _ _ hg g hgmem

/-- C10: every group returned by create_community_groups has between 2 and 6
members: a seed vendor followed by a non-empty list of at most 5 ids (the 5
comes from the internal find_similar_vendors call with limit 5), each of which
appears in the seed's similarity list with score strictly above 0.5. -/
theorem claim_C10_group_shape (db : List VendorProfile) :
    ∀ g ∈ create_community_groups db,
      2 ≤ g.members.length ∧ g.members.length ≤ 6
      ∧ ∃ seed rest, g.members = seed :: rest ∧ rest ≠ [] ∧ rest.length ≤ 5
          ∧ ∀ m ∈ rest, ∃ e ∈ find_similar_vendors db seed 5,
              e.vendor_id = m ∧ (1:ℚ)/2 < e.similarity_score := by
  intro g hg
  have hgood : good_group db g := groups_loop_good db _ [] [] (by simp) g hg
  obtain ⟨seed, rest, hm, hne, hlen, hmem⟩ := hgood
  have hrl : 0 < rest.length := List.length_pos.2 hne
  refine ⟨?_, ?_, seed, rest, hm, hne, hlen, hmem⟩
  · rw [hm, List.length_cons]
    omega
  · rw [hm, List.length_cons]
    omega

/-- C10 witness: the two-vendor store of identical profiles forms exactly one
group with 2 members. -/
theorem claim_C10_witness :
    2 ≤ w_group.members.length ∧ w_group.members.length ≤ 6 := by
  have h := claim_C10_group_shape [w_v1, w_v2] w_group (by decide)
  exact ⟨h.1, h.2.1⟩

end Theorems
